import Mathlib

/-!
Shallow embedding of the MoodScale backend (src/backend/src/index.ts and the
MoodEntry schema) together with the one relevant frontend check
(PlaylistPersonalityAnalyzer.tsx).  Strings from the request bodies that are
subject to JavaScript `trim` are modelled as `List Char`; JavaScript numbers
are modelled as `ℚ`; timestamps as epoch milliseconds (`ℕ`); calendar-day
keys as `ℤ` day numbers (`timestamp.toISOString().split('T')[0]` under a UTC
clock corresponds to integer division by 86400000).  External services
(document store, AI gateway, music catalog) are modelled by explicit
parameters: the store is a `List Entry` threaded through the handlers, and
each network call outcome is an argument of the handler.
-/

namespace MoodScale

/-- Whitespace characters removed by JavaScript `String.prototype.trim`
(modelled on the ASCII subset actually produced by the clients). -/
def isWs (c : Char) : Bool :=
  c = ' ' || c = '\t' || c = '\n' || c = '\r' || c = '\x0b' || c = '\x0c'

/-- JavaScript `s.trim()`: strip leading and trailing whitespace. -/
def trimChars (l : List Char) : List Char :=
  ((l.dropWhile isWs).reverse.dropWhile isWs).reverse

/-- `note?.trim() || undefined` / `song?.trim() || undefined` from the
POST /api/moods handler: an absent field stays absent, and a field whose
trimmed value is the empty string (falsy) becomes `undefined`. -/
def normalizeField : Option (List Char) → Option (List Char)
  | none => none
  | some s => let t := trimChars s; if t = [] then none else some t

/-- A JavaScript value as it can arrive in the `mood` field of a JSON body:
a number, a string, or absent.  (Other JSON shapes behave like `str`
for the `typeof mood !== 'number'` test.) -/
inductive JsVal where
  | num (q : ℚ)
  | str (s : List Char)
  | undef
deriving DecidableEq

/-- The `typeof mood !== 'number' || mood < 0 || mood > 4` validation of the
POST /api/moods and POST /api/recommend-songs handlers, as a predicate on the
incoming value (true = accepted). -/
def moodAccepted : JsVal → Bool
  | .num q => decide (0 ≤ q) && decide (q ≤ 4)
  | _ => false

/-- A persisted MoodEntry document (src/backend/src/models/MoodEntry.ts):
`mood` is stored exactly as validated (a JavaScript number), `note`/`song`
are optional strings, `timestamp` is the creation instant. -/
structure Entry where
  mood : ℚ
  note : Option (List Char)
  song : Option (List Char)
  timestamp : ℕ
deriving DecidableEq

/-- Response of POST /api/moods: 400 on failed validation, otherwise the
saved entry together with the (possibly null) AI insight. -/
inductive PostMoodRes where
  | badRequest
  | ok (entry : Entry) (aiInsight : Option (List Char))
deriving DecidableEq

/-- The POST /api/moods handler.  `gk` is whether GEMINI_API_KEY is set; `ai`
is the outcome of the `generateContent` call (`.error` = the call threw, in
which case the catch block leaves the insight null).  Returns the HTTP
response together with the store after the request. -/
def postMood (store : List Entry) (mood : JsVal) (note song : Option (List Char))
    (now : ℕ) (gk : Bool) (ai : Except Unit (List Char)) :
    PostMoodRes × List Entry :=
  match mood with
  | .num q =>
    if 0 ≤ q ∧ q ≤ 4 then
      let entry : Entry :=
        { mood := q, note := normalizeField note, song := normalizeField song,
          timestamp := now }
      let aiInsight : Option (List Char) :=
        if gk then
          match ai with
          | .ok s => some (trimChars s)
          | .error _ => none
        else none
      (.ok entry aiInsight, store ++ [entry])
    else (.badRequest, store)
  | _ => (.badRequest, store)

/-- Insertion step of a descending sort by a key. -/
def insertDescBy {α β : Type} [LinearOrder β] (key : α → β) (a : α) :
    List α → List α
  | [] => [a]
  | b :: bs => if key b ≤ key a then a :: b :: bs else b :: insertDescBy key a bs

/-- Descending insertion sort by a key; models `.sort({timestamp: -1})` and
the by-date descending sort of the daily-average rows. -/
def sortDescBy {α β : Type} [LinearOrder β] (key : α → β) : List α → List α
  | [] => []
  | a :: as => insertDescBy key a (sortDescBy key as)

/-- The GET /api/moods handler: all entries sorted by timestamp descending,
limited to 50. -/
def getMoods (store : List Entry) : List Entry :=
  (sortDescBy (fun e => e.timestamp) store).take 50

/-- Milliseconds in a calendar day. -/
def msPerDay : ℕ := 86400000

/-- The day key an entry is grouped under:
`entry.timestamp.toISOString().split('T')[0]`, i.e. the UTC calendar day of
the timestamp, represented as a day number. -/
def dateKey (e : Entry) : ℤ := ((e.timestamp / msPerDay : ℕ) : ℤ)

/-- All mood values recorded on day `d` (the value list of the
`dailyMoods` map for that key). -/
def moodsOn (store : List Entry) (d : ℤ) : List ℚ :=
  (store.filter (fun e => dateKey e = d)).map Entry.mood

/-- The distinct day keys of the store, sorted descending — the `date`
column of the `dailyAverages` array after its by-date sort. -/
def dayList (store : List Entry) : List ℤ :=
  sortDescBy id (store.map dateKey).dedup

/-- One row of the `dailyAverages` array. -/
structure DailyRow where
  date : ℤ
  averageMood : ℚ
  entryCount : ℕ
deriving DecidableEq

/-- The daily-average row for day `d`: mean of the moods recorded that day,
with the entry count. -/
def dailyRow (store : List Entry) (d : ℤ) : DailyRow :=
  { date := d,
    averageMood := (moodsOn store d).sum / ((moodsOn store d).length : ℚ),
    entryCount := (moodsOn store d).length }

/-- The `dailyAverages` array: one row per distinct day, sorted by date
descending. -/
def dailyAverages (store : List Entry) : List DailyRow :=
  (dayList store).map (dailyRow store)

/-- The streak loop: walking down the date-descending rows, count while
row `i` carries the expected day `today - i`, stop at the first mismatch. -/
def streakFrom (expected : ℤ) : List ℤ → ℕ
  | [] => 0
  | d :: ds => if d = expected then streakFrom (expected - 1) ds + 1 else 0

/-- The streak reported by GET /api/insights. -/
def computedStreak (store : List Entry) (today : ℤ) : ℕ :=
  streakFrom today ((dailyAverages store).map DailyRow.date)

/-- `overallAverage`: the mean of the daily averages (each day weighted
equally), not the mean of the raw entries. -/
def overallAverage (store : List Entry) : ℚ :=
  ((dailyAverages store).map DailyRow.averageMood).sum /
    ((dailyAverages store).length : ℚ)

/-- The mean of the raw entries, for contrast with `overallAverage`
(the code never computes this). -/
def rawMean (store : List Entry) : ℚ :=
  (store.map Entry.mood).sum / ((store.length : ℚ))

/-- The JSON payload of GET /api/insights. -/
structure InsightsResponse where
  insights : List String
  recommendations : List String
  averageMood : ℚ
  streak : ℕ
  totalDays : ℕ
  dailyAverages : List DailyRow
deriving DecidableEq

/-- The templated fallback texts used when the AI gateway is unconfigured or
fails; `tf` stands for JavaScript number formatting with `toFixed(1)`. -/
def fallbackInsightTexts (tf : ℚ → String) (avg : ℚ) (streak totalDays : ℕ) :
    List String × List String :=
  (["Your average daily mood is " ++ tf avg ++ "/4 across " ++
      toString totalDays ++ " days.",
    "You have a " ++ toString streak ++ "-day tracking streak!"],
   ["Keep tracking your mood daily for better insights!",
    "Try to identify patterns in your mood changes."])

/-- The GET /api/insights handler.  `tf` models `toFixed(1)` number
formatting; `gk` is whether GEMINI_API_KEY is set; `ai` is the outcome of
the AI call including the JSON parse of its text (`.error` = the call threw
or its response failed to parse, which the catch block turns into the
templated fallback texts). -/
def insightsHandler (tf : ℚ → String) (store : List Entry) (today : ℤ)
    (gk : Bool) (ai : Except Unit (List String × List String)) :
    InsightsResponse :=
  if store = [] then
    { insights := ["Start tracking your mood to get personalized insights!"],
      recommendations := ["Record your first mood entry to begin your journey."],
      averageMood := 2, streak := 0, totalDays := 0, dailyAverages := [] }
  else
    let rows := dailyAverages store
    let s := computedStreak store today
    let avg := overallAverage store
    let texts :=
      if gk then
        match ai with
        | .ok p => p
        | .error _ => fallbackInsightTexts tf avg s rows.length
      else fallbackInsightTexts tf avg s rows.length
    { insights := texts.1, recommendations := texts.2,
      averageMood := avg, streak := s, totalDays := rows.length,
      dailyAverages := rows.take 30 }

/-- `[a-zA-Z0-9]` character class. -/
def isAlnum (c : Char) : Bool :=
  ('a' ≤ c && c ≤ 'z') || ('A' ≤ c && c ≤ 'Z') || ('0' ≤ c && c ≤ '9')

/-- The literal part of the first accepted pattern,
`spotify:playlist:([a-zA-Z0-9]+)`. -/
def litP1 : List Char := "spotify:playlist:".data

/-- The literal part of the second accepted pattern,
`open\.spotify\.com\/playlist\/([a-zA-Z0-9]+)`. -/
def litP2 : List Char := "open.spotify.com/playlist/".data

/-- Matching of `lit([a-zA-Z0-9]+)` against a string: find the leftmost
position where the literal occurs followed by at least one alphanumeric
character, and capture the maximal alphanumeric run after the literal
(JavaScript `String.match` with a non-global regex). -/
def matchAfterLit (lit : List Char) : List Char → Option (List Char)
  | [] => none
  | c :: cs =>
    if lit.isPrefixOf (c :: cs) then
      let run := ((c :: cs).drop lit.length).takeWhile isAlnum
      if run = [] then matchAfterLit lit cs else some run
    else matchAfterLit lit cs

/-- The third accepted pattern, `^([a-zA-Z0-9]+)$`: the whole string is a
non-empty alphanumeric run. -/
def bareIdMatch (s : List Char) : Option (List Char) :=
  if s ≠ [] ∧ s.all isAlnum then some s else none

/-- `extractPlaylistId`: try the three patterns in order, first match wins,
otherwise null. -/
def extractPlaylistId (s : List Char) : Option (List Char) :=
  match matchAfterLit litP1 s with
  | some pid => some pid
  | none =>
    match matchAfterLit litP2 s with
    | some pid => some pid
    | none => bareIdMatch s

/-- A track of the playlist-analysis request (`PlaylistTrack` interface). -/
structure PlaylistTrack where
  title : List Char
  artist : List Char
  genre : Option (List Char)
  album : Option (List Char)
  year : Option ℤ
  duration : Option ℕ
deriving DecidableEq

/-- An outgoing network call made by the playlist handler. -/
inductive ExtCall where
  | catalogToken
  | catalogTracks
  | aiGenerate
deriving DecidableEq

/-- HTTP status class of the playlist handler response. -/
inductive PAStatus where
  | ok200
  | bad400
  | err500
deriving DecidableEq

/-- Playlist handler result: the response status together with the network
calls the handler performed, in order. -/
structure PAOutcome where
  status : PAStatus
  calls : List ExtCall
deriving DecidableEq

/-- JavaScript truthiness of the optional `spotifyUrl` string field. -/
def truthyStr : Option (List Char) → Bool
  | some s => s ≠ []
  | none => false

/-- Tail of the playlist handler once `playlistTracks` is settled: the
empty-playlist 400, the missing-AI-key 500, then the AI call, whose parse
outcome decides 200 versus 500 (no fallback payload on this endpoint). -/
def playlistTail (calls : List ExtCall) (pts : List PlaylistTrack)
    (gk : Bool) (ai : Except Unit Bool) : PAOutcome :=
  if pts = [] then { status := .bad400, calls := calls }
  else if gk = false then { status := .err500, calls := calls }
  else
    match ai with
    | .error _ => { status := .err500, calls := calls ++ [.aiGenerate] }
    | .ok true => { status := .ok200, calls := calls ++ [.aiGenerate] }
    | .ok false => { status := .err500, calls := calls ++ [.aiGenerate] }

/-- The POST /api/playlist/analyze handler.  `spotifyCreds` is whether the
catalog client id/secret are configured (checked before any network call);
`tokenOk` is the outcome of the token exchange; `catalog` is the outcome of
the playlist fetch (tracks, true total, playlist name); `gk`/`ai` as for the
other AI endpoints, with `ai = .ok parsed` recording whether the AI JSON
parsed. -/
def playlistAnalyze (spotifyUrl : Option (List Char))
    (tracks : Option (List PlaylistTrack))
    (spotifyCreds : Bool) (tokenOk : Bool)
    (catalog : Except Unit (List PlaylistTrack × ℕ × List Char))
    (gk : Bool) (ai : Except Unit Bool) : PAOutcome :=
  if truthyStr spotifyUrl then
    match spotifyUrl with
    | some s =>
      match extractPlaylistId s with
      | none => { status := .bad400, calls := [] }
      | some _ =>
        if spotifyCreds = false then { status := .err500, calls := [] }
        else if tokenOk = false then
          { status := .err500, calls := [.catalogToken] }
        else
          match catalog with
          | .error _ =>
            { status := .bad400, calls := [.catalogToken, .catalogTracks] }
          | .ok (ts, _, _) =>
            playlistTail [.catalogToken, .catalogTracks] ts gk ai
    | none => { status := .bad400, calls := [] }
  else
    match tracks with
    | some l =>
      if l = [] then { status := .bad400, calls := [] }
      else playlistTail [] l gk ai
    | none => { status := .bad400, calls := [] }

/-- The frontend's notion of a complete manual track:
`track.title.trim() && track.artist.trim()` is truthy. -/
def validManualTrack (t : PlaylistTrack) : Bool :=
  trimChars t.title ≠ [] && trimChars t.artist ≠ []

/-- The manual branch of the frontend `analyzePersonality` function: filter
to complete tracks, and issue a request (with the filtered list) only when
at least 3 remain; otherwise set an error message and send nothing. -/
def frontendManualRequest (tracks : List PlaylistTrack) :
    Option (List PlaylistTrack) :=
  let valid := tracks.filter validManualTrack
  if valid.length < 3 then none else some valid

/-- One song recommendation item of POST /api/recommend-songs. -/
structure RecItem where
  title : String
  artist : String
  reason : String
  energy : ℚ
  moodMatch : ℚ
deriving DecidableEq

/-- The POST /api/recommend-songs response payload. -/
structure RecPayload where
  recommendations : List RecItem
  playlistVibe : String
deriving DecidableEq

/-- The hardcoded fallback payload of POST /api/recommend-songs: three fixed
items with two mood-dependent match scores, sliced to 2 items for happy
moods and 3 otherwise, plus a mood-dependent vibe string. -/
def fallbackRecommendations (mood : ℚ) : RecPayload :=
  { recommendations :=
      ([{ title := "Here Comes the Sun", artist := "The Beatles",
          reason := "A timeless uplifting classic that brightens any mood.",
          energy := (38 : ℚ) / 10, moodMatch := 4 },
        { title := "Good as Hell", artist := "Lizzo",
          reason := "Empowering and energetic, perfect for self-love.",
          energy := (45 : ℚ) / 10,
          moodMatch := if 3 ≤ mood then (42 : ℚ) / 10 else 3 },
        { title := "Weightless", artist := "Marconi Union",
          reason := "Scientifically designed to reduce anxiety and stress.",
          energy := (15 : ℚ) / 10,
          moodMatch := if mood ≤ 2 then 4 else (25 : ℚ) / 10 }] :
        List RecItem).take (if 3 ≤ mood then 2 else 3),
    playlistVibe :=
      if 3 ≤ mood then "Upbeat and energizing vibes"
      else "Calming and restorative atmosphere" }

/-- Response of POST /api/recommend-songs. -/
inductive RecRes where
  | bad400
  | err500
  | ok200 (payload : RecPayload)
deriving DecidableEq

/-- The POST /api/recommend-songs handler.  `ai = .ok (some p)` means the AI
call returned text whose JSON parse yielded `p`; `ai = .ok none` means the
text failed to parse (fallback payload); `ai = .error ()` means the AI call
itself threw (outer catch, 500). -/
def recommendSongs (mood : JsVal) (gk : Bool)
    (ai : Except Unit (Option RecPayload)) : RecRes :=
  match mood with
  | .num q =>
    if 0 ≤ q ∧ q ≤ 4 then
      if gk = false then .err500
      else
        match ai with
        | .error _ => .err500
        | .ok (some p) => .ok200 p
        | .ok none => .ok200 (fallbackRecommendations q)
    else .bad400
  | _ => .bad400

/-- A store with two entries on the same calendar day, moods 1 and 3. -/
def storeTwoSameDay : List Entry :=
  [{ mood := 1, note := none, song := none, timestamp := 1000 },
   { mood := 3, note := none, song := none, timestamp := 2000 }]

/-- A store with two entries (moods 0, 0) on day 0 and one entry (mood 4) on
day 1: the day-weighted overall average is 2, the raw-entry mean is 4/3. -/
def storeUneven : List Entry :=
  [{ mood := 0, note := none, song := none, timestamp := 0 },
   { mood := 0, note := none, song := none, timestamp := 1000 },
   { mood := 4, note := none, song := none, timestamp := msPerDay }]

/-- A store with one entry on each of the days 4, 3, 2 and 0 (gap at day 3
before "today" = day 4 ... i.e. days today, today-1, today-2, today-4). -/
def storeStreak : List Entry :=
  [{ mood := 2, note := none, song := none, timestamp := 4 * msPerDay },
   { mood := 2, note := none, song := none, timestamp := 3 * msPerDay },
   { mood := 2, note := none, song := none, timestamp := 2 * msPerDay },
   { mood := 2, note := none, song := none, timestamp := 0 }]

/-- A complete manual track (nonempty title and artist). -/
def sampleTrack : PlaylistTrack :=
  { title := "Bohemian Rhapsody".data, artist := "Queen".data,
    genre := none, album := none, year := none, duration := none }

/-! ### Helper lemmas about the descending insertion sort -/

theorem perm_insertDescBy {α β : Type} [LinearOrder β] (key : α → β) (a : α)
    (l : List α) : List.Perm (insertDescBy key a l) (a :: l) := by
  induction l with
  | nil => simp [insertDescBy]
  | cons b bs ih =>
    by_cases h : key b ≤ key a
    · simp [insertDescBy, h]
    · simp only [insertDescBy, if_neg h]
      exact (ih.cons b).trans (List.Perm.swap a b bs)

theorem sorted_insertDescBy {α β : Type} [LinearOrder β] (key : α → β) (a : α)
    {l : List α} (h : l.Pairwise (fun x y => key y ≤ key x)) :
    (insertDescBy key a l).Pairwise (fun x y => key y ≤ key x) := by
  induction l with
  | nil => simp [insertDescBy]
  | cons b bs ih =>
    rcases List.pairwise_cons.mp h with ⟨hb, hbs⟩
    by_cases hba : key b ≤ key a
    · simp only [insertDescBy, if_pos hba]
      refine List.pairwise_cons.mpr ⟨?_, h⟩
      intro y hy
      rcases List.mem_cons.mp hy with rfl | hy
      · exact hba
      · exact le_trans (hb y hy) hba
    · simp only [insertDescBy, if_neg hba]
      refine List.pairwise_cons.mpr ⟨?_, ih hbs⟩
      intro y hy
      rcases List.mem_cons.mp ((perm_insertDescBy key a bs).mem_iff.mp hy) with
        rfl | hy
      · exact le_of_lt (not_le.mp hba)
      · exact hb y hy

theorem perm_sortDescBy {α β : Type} [LinearOrder β] (key : α → β)
    (l : List α) : List.Perm (sortDescBy key l) l := by
  induction l with
  | nil => simp [sortDescBy]
  | cons a as ih =>
    exact (perm_insertDescBy key a (sortDescBy key as)).trans (ih.cons a)

theorem sorted_sortDescBy {α β : Type} [LinearOrder β] (key : α → β)
    (l : List α) :
    (sortDescBy key l).Pairwise (fun x y => key y ≤ key x) := by
  induction l with
  | nil => simp [sortDescBy]
  | cons a as ih => exact sorted_insertDescBy key a ih

/-! ### Helper lemmas about day lists and streaks -/

theorem dailyAverages_map_date (store : List Entry) :
    (dailyAverages store).map DailyRow.date = dayList store := by
  unfold dailyAverages
  rw [List.map_map]
  have h : DailyRow.date ∘ dailyRow store = id := rfl
  rw [h, List.map_id]

theorem dayList_eq_of_toFinset_eq (store : List Entry) (L : List ℤ)
    (hnd : L.Nodup) (hsor : L.Pairwise (fun x y : ℤ => y ≤ x))
    (hfin : (store.map dateKey).toFinset = L.toFinset) :
    dayList store = L := by
  have hperm : List.Perm (dayList store) (store.map dateKey).dedup :=
    perm_sortDescBy id _
  have hnd1 : (dayList store).Nodup :=
    hperm.nodup_iff.mpr (List.nodup_dedup _)
  have hsor1 : (dayList store).Pairwise (fun x y : ℤ => y ≤ x) := by
    have h := sorted_sortDescBy (id : ℤ → ℤ) (store.map dateKey).dedup
    simpa using h
  have hfin1 : (dayList store).toFinset = L.toFinset := by
    ext k
    simp only [List.mem_toFinset]
    rw [hperm.mem_iff, List.mem_dedup, ← List.mem_toFinset, hfin,
      List.mem_toFinset]
  have hp : List.Perm (dayList store) L :=
    List.perm_of_nodup_nodup_toFinset_eq hnd1 hnd hfin1
  haveI : IsAntisymm ℤ (fun x y : ℤ => y ≤ x) :=
    ⟨fun a b h1 h2 => le_antisymm h2 h1⟩
  exact List.eq_of_perm_of_sorted hp hsor1 hsor

theorem streakFrom_cons_eq (e : ℤ) (ds : List ℤ) :
    streakFrom e (e :: ds) = streakFrom (e - 1) ds + 1 := by
  simp [streakFrom]

theorem streakFrom_cons_ne (e d : ℤ) (ds : List ℤ) (h : d ≠ e) :
    streakFrom e (d :: ds) = 0 := by
  simp [streakFrom, h]

/-! ### Helper lemmas about field normalization -/

theorem normalizeField_none_or_nonempty (o : Option (List Char)) :
    normalizeField o = none ∨ ∃ l, normalizeField o = some l ∧ l ≠ [] := by
  cases o with
  | none => exact Or.inl rfl
  | some s =>
    by_cases h : trimChars s = []
    · exact Or.inl (by simp [normalizeField, h])
    · exact Or.inr ⟨trimChars s, by simp [normalizeField, h], h⟩

theorem trimChars_all_ws (l : List Char) (h : ∀ c ∈ l, isWs c = true) :
    trimChars l = [] := by
  unfold trimChars
  rw [List.dropWhile_eq_nil_iff.mpr h]
  rfl

theorem normalizeField_all_ws (s : List Char) (h : ∀ c ∈ s, isWs c = true) :
    normalizeField (some s) = none := by
  simp [normalizeField, trimChars_all_ws s h]

/-! ### Claim theorems -/

/-- C10: on an empty store, GET /api/insights returns the fixed default
payload — averageMood 2 (the scale midpoint despite no data), streak 0,
totalDays 0, empty dailyAverages, and the fixed starter insight and
recommendation strings — rather than an error, for every clock value,
AI configuration and AI outcome. -/
theorem C10_empty_store_default (tf : ℚ → String) (today : ℤ) (gk : Bool)
    (ai : Except Unit (List String × List String)) :
    insightsHandler tf [] today gk ai =
      { insights := ["Start tracking your mood to get personalized insights!"],
        recommendations :=
          ["Record your first mood entry to begin your journey."],
        averageMood := 2, streak := 0, totalDays := 0,
        dailyAverages := [] } := rfl

/-- C6: for every store state (hence after every sequence of creates and
deletes), GET /api/moods returns at most 50 entries, ordered descending by
timestamp (most recent first). -/
theorem C6_list_limit_and_order (store : List Entry) :
    (getMoods store).length ≤ 50 ∧
      (getMoods store).Pairwise (fun a b => b.timestamp ≤ a.timestamp) := by
  constructor
  · have h := List.length_take 50 (sortDescBy (fun e : Entry => e.timestamp) store)
    rw [getMoods, h]
    exact min_le_left _ _
  · have hs := sorted_sortDescBy (fun e : Entry => e.timestamp) store
    exact List.Pairwise.sublist (List.take_sublist _ _) hs

/-- C5: for every store state and every valid mood, if the AI-insight call
during POST /api/moods fails, the handler still responds successfully with
the saved entry and a null aiInsight, and the entry is persisted. -/
theorem C5_ai_failure_still_succeeds (store : List Entry) (q : ℚ)
    (note song : Option (List Char)) (now : ℕ) (gk : Bool)
    (h0 : 0 ≤ q) (h4 : q ≤ 4) :
    ∃ e : Entry,
      postMood store (.num q) note song now gk (.error ()) =
        (.ok e none, store ++ [e]) ∧
      e ∈ (postMood store (.num q) note song now gk (.error ())).2 := by
  have hres : postMood store (.num q) note song now gk (.error ()) =
      (.ok { mood := q, note := normalizeField note,
             song := normalizeField song, timestamp := now } none,
        store ++ [{ mood := q, note := normalizeField note,
                    song := normalizeField song, timestamp := now }]) := by
    cases gk <;> simp [postMood, h0, h4]
  exact ⟨_, hres, by rw [hres]; simp⟩

/-- Witness for C5 at a concrete input: empty store, mood 3, AI configured
but failing. -/
theorem C5_witness :
    ∃ e : Entry,
      postMood [] (.num 3) none none 0 true (.error ()) =
        (.ok e none, [] ++ [e]) ∧
      e ∈ (postMood [] (.num 3) none none 0 true (.error ())).2 :=
  C5_ai_failure_still_succeeds [] 3 none none 0 true (by norm_num)
    (by norm_num)

/-- C1 counterexample: the non-integer mood 5/2 lies in [0,4], yet
POST /api/moods does not return 400 — it persists an entry — because the
handler only checks `typeof mood !== 'number' || mood < 0 || mood > 4` and
never checks integrality. -/
theorem C1_counterexample :
    (mkRat 5 2).den ≠ 1 ∧ 0 ≤ mkRat 5 2 ∧ mkRat 5 2 ≤ 4 ∧
    (postMood [] (.num (mkRat 5 2)) none none 0 false (.error ())).1 ≠
      .badRequest ∧
    (postMood [] (.num (mkRat 5 2)) none none 0 false (.error ())).2 ≠
      [] := by
  decide

/-- C1 (amended): POST /api/moods returns status 400 and persists nothing
whenever the mood field is not a number or is a number outside [0,4];
non-integer numbers inside [0,4] are accepted. -/
theorem C1_reject_nonnumber_or_out_of_range (store : List Entry)
    (note song : Option (List Char)) (now : ℕ) (gk : Bool)
    (ai : Except Unit (List Char)) (mood : JsVal)
    (h : moodAccepted mood = false) :
    postMood store mood note song now gk ai = (.badRequest, store) := by
  cases mood with
  | num q =>
    have hn : ¬(0 ≤ q ∧ q ≤ 4) := by
      intro hc
      rw [moodAccepted] at h
      simp [hc.1, hc.2] at h
    simp [postMood, hn]
  | str s => rfl
  | undef => rfl

/-- Witness for C1 (amended) at a concrete input: a string-valued mood. -/
theorem C1_witness :
    postMood [] (.str ['x']) none none 0 false (.error ()) =
      (.badRequest, []) :=
  C1_reject_nonnumber_or_out_of_range [] none none 0 false (.error ())
    (.str ['x']) (by decide)

/-- C9: every entry present in the store after a POST /api/moods request was
either already there, or was created with normalized optional fields: its
note/song is absent or a non-empty string, and an absent, empty, or
whitespace-only note/song in the request is stored as no value. -/
theorem C9_note_song_normalized (store : List Entry) (mood : JsVal)
    (note song : Option (List Char)) (now : ℕ) (gk : Bool)
    (ai : Except Unit (List Char)) (e : Entry)
    (he : e ∈ (postMood store mood note song now gk ai).2) :
    e ∈ store ∨
      ((e.note = none ∨ ∃ l, e.note = some l ∧ l ≠ []) ∧
       (e.song = none ∨ ∃ l, e.song = some l ∧ l ≠ []) ∧
       (note = none → e.note = none) ∧
       (song = none → e.song = none) ∧
       (∀ l, note = some l → (∀ c ∈ l, isWs c = true) → e.note = none) ∧
       (∀ l, song = some l → (∀ c ∈ l, isWs c = true) → e.song = none)) := by
  cases mood with
  | num q =>
    by_cases hq : 0 ≤ q ∧ q ≤ 4
    · simp only [postMood, if_pos hq] at he
      rcases List.mem_append.mp he with hin | hnew
      · exact Or.inl hin
      · rcases List.mem_singleton.mp hnew with rfl
        refine Or.inr ⟨normalizeField_none_or_nonempty note,
          normalizeField_none_or_nonempty song, ?_, ?_, ?_, ?_⟩
        · intro hl
          subst hl
          rfl
        · intro hl
          subst hl
          rfl
        · intro l hl hws
          subst hl
          exact normalizeField_all_ws l hws
        · intro l hl hws
          subst hl
          exact normalizeField_all_ws l hws
    · simp only [postMood, if_neg hq] at he
      exact Or.inl he
  | str s => exact Or.inl he
  | undef => exact Or.inl he

/-- Witness for C9 at a concrete input: a whitespace-only note and an absent
song are both stored as no value. -/
theorem C9_witness :
    ({ mood := 2, note := none, song := none, timestamp := 0 } : Entry) ∈
        ([] : List Entry) ∨
      ((({ mood := 2, note := none, song := none, timestamp := 0 } :
            Entry).note = none ∨
          ∃ l, ({ mood := 2, note := none, song := none, timestamp := 0 } :
            Entry).note = some l ∧ l ≠ []) ∧
       (({ mood := 2, note := none, song := none, timestamp := 0 } :
            Entry).song = none ∨
          ∃ l, ({ mood := 2, note := none, song := none, timestamp := 0 } :
            Entry).song = some l ∧ l ≠ []) ∧
       ((some [' ', '\t'] : Option (List Char)) = none →
          ({ mood := 2, note := none, song := none, timestamp := 0 } :
            Entry).note = none) ∧
       ((none : Option (List Char)) = none →
          ({ mood := 2, note := none, song := none, timestamp := 0 } :
            Entry).song = none) ∧
       (∀ l, some [' ', '\t'] = some l → (∀ c ∈ l, isWs c = true) →
          ({ mood := 2, note := none, song := none, timestamp := 0 } :
            Entry).note = none) ∧
       (∀ l, (none : Option (List Char)) = some l →
          (∀ c ∈ l, isWs c = true) →
          ({ mood := 2, note := none, song := none, timestamp := 0 } :
            Entry).song = none)) :=
  C9_note_song_normalized [] (.num 2) (some [' ', '\t']) none 0 false
    (.error ()) { mood := 2, note := none, song := none, timestamp := 0 }
    (by decide)

/-- C3: for any store whose entries fall exactly on the calendar days
today, today-1, today-2 and today-4, the streak computed by
GET /api/insights equals 3 — it walks backward from today and stops at the
gap on today-3. -/
theorem C3_streak_three (tf : ℚ → String) (gk : Bool)
    (ai : Except Unit (List String × List String)) (store : List Entry)
    (T : ℤ)
    (hfin : (store.map dateKey).toFinset =
      ({T, T - 1, T - 2, T - 4} : Finset ℤ)) :
    (insightsHandler tf store T gk ai).streak = 3 := by
  have hne : store ≠ [] := by
    intro hs
    subst hs
    have hT : T ∈ ({T, T - 1, T - 2, T - 4} : Finset ℤ) := by simp
    rw [← hfin] at hT
    simp at hT
  have hL : dayList store = [T, T - 1, T - 2, T - 4] := by
    apply dayList_eq_of_toFinset_eq
    · simp
      omega
    · simp
      omega
    · rw [hfin]
      ext k
      simp [List.mem_cons, or_assoc]
  have hstreak : computedStreak store T = 3 := by
    unfold computedStreak
    rw [dailyAverages_map_date, hL, streakFrom_cons_eq, streakFrom_cons_eq]
    have e1 : T - 1 - 1 = T - 2 := by ring
    rw [e1, streakFrom_cons_eq]
    have e2 : T - 2 - 1 = T - 3 := by ring
    rw [e2, streakFrom_cons_ne (T - 3) (T - 4) [] (by omega)]
  simp only [insightsHandler, if_neg hne]
  exact hstreak

/-- Witness for C3 at a concrete input: one entry on each of the days
4, 3, 2 and 0, with today = day 4. -/
theorem C3_witness :
    (insightsHandler (fun _ => "") storeStreak 4 false (.error ())).streak =
      3 :=
  C3_streak_three (fun _ => "") false (.error ()) storeStreak 4 (by decide)

/-- C4: two entries on the same calendar date with moods 1 and 3 produce
exactly one daily-average row with averageMood 2 and entryCount 2, and the
reported overall averageMood is 2; in general the overall average is the
mean of the daily averages (each day weighted equally), and it differs from
the mean of the raw entries (witnessed by a store with uneven entry counts
per day). -/
theorem C4_daily_and_overall_average (tf : ℚ → String) (gk : Bool)
    (ai : Except Unit (List String × List String)) (store : List Entry)
    (today : ℤ) (h : store ≠ []) :
    (insightsHandler tf store today gk ai).averageMood =
      ((dailyAverages store).map DailyRow.averageMood).sum /
        ((dailyAverages store).length : ℚ) ∧
    (insightsHandler tf store today gk ai).dailyAverages =
      (dailyAverages store).take 30 ∧
    dailyAverages storeTwoSameDay =
      [{ date := 0, averageMood := 2, entryCount := 2 }] ∧
    overallAverage storeTwoSameDay = 2 ∧
    overallAverage storeUneven ≠ rawMean storeUneven := by
  have hrows : dailyAverages storeTwoSameDay =
      [{ date := 0, averageMood := 2, entryCount := 2 }] := by
    have h1 : dailyAverages storeTwoSameDay =
        [dailyRow storeTwoSameDay 0] := rfl
    have h2 : moodsOn storeTwoSameDay 0 = [1, 3] := rfl
    rw [h1, dailyRow, h2]
    norm_num
  refine ⟨?_, ?_, hrows, ?_, ?_⟩
  · simp only [insightsHandler, if_neg h]
    rfl
  · simp only [insightsHandler, if_neg h]
  · rw [overallAverage, hrows]
    norm_num
  · have h1 : dailyAverages storeUneven =
        [dailyRow storeUneven 1, dailyRow storeUneven 0] := rfl
    have h2 : moodsOn storeUneven 1 = [4] := rfl
    have h3 : moodsOn storeUneven 0 = [0, 0] := rfl
    have h4 : storeUneven.map Entry.mood = [0, 0, 4] := rfl
    have h5 : storeUneven.length = 3 := rfl
    rw [overallAverage, rawMean, h1, dailyRow, dailyRow, h2, h3, h4, h5]
    norm_num

/-- Witness for C4 at a concrete input: the two-entry same-day store. -/
theorem C4_witness :
    (insightsHandler (fun _ => "") storeTwoSameDay 0 false
        (.error ())).averageMood =
      ((dailyAverages storeTwoSameDay).map DailyRow.averageMood).sum /
        ((dailyAverages storeTwoSameDay).length : ℚ) :=
  (C4_daily_and_overall_average (fun _ => "") false (.error ())
    storeTwoSameDay 0 (by decide)).1

/-- C7: for every valid mood, when the AI response of
POST /api/recommend-songs cannot be parsed as JSON, the endpoint still
responds with HTTP 200 carrying the hardcoded fallback payload, whose
recommendations array is non-empty and whose playlist_vibe is one of the
two fixed strings. -/
theorem C7_fallback_on_parse_failure (q : ℚ) (h0 : 0 ≤ q) (h4 : q ≤ 4) :
    recommendSongs (.num q) true (.ok none) =
      .ok200 (fallbackRecommendations q) ∧
    (fallbackRecommendations q).recommendations ≠ [] ∧
    ((fallbackRecommendations q).playlistVibe =
        "Upbeat and energizing vibes" ∨
      (fallbackRecommendations q).playlistVibe =
        "Calming and restorative atmosphere") := by
  refine ⟨?_, ?_, ?_⟩
  · simp [recommendSongs, h0, h4]
  · by_cases h3 : (3 : ℚ) ≤ q <;> simp [fallbackRecommendations, h3]
  · by_cases h3 : (3 : ℚ) ≤ q <;> simp [fallbackRecommendations, h3]

/-- Witness for C7 at a concrete input: mood 0. -/
theorem C7_witness :
    recommendSongs (.num 0) true (.ok none) =
      .ok200 (fallbackRecommendations 0) ∧
    (fallbackRecommendations 0).recommendations ≠ [] ∧
    ((fallbackRecommendations 0).playlistVibe =
        "Upbeat and energizing vibes" ∨
      (fallbackRecommendations 0).playlistVibe =
        "Calming and restorative atmosphere") :=
  C7_fallback_on_parse_failure 0 (by norm_num) (by norm_num)

/-- C2 counterexample: a direct POST /api/playlist/analyze request with a
single manual track (fewer than 3) is not rejected by the backend handler —
it responds 200 and the AI gateway is called — because the handler only
requires `tracks.length > 0`. -/
theorem C2_counterexample :
    [sampleTrack].length < 3 ∧
    (playlistAnalyze none (some [sampleTrack]) false false (.error ()) true
        (.ok true)).status = .ok200 ∧
    .aiGenerate ∈ (playlistAnalyze none (some [sampleTrack]) false false
        (.error ()) true (.ok true)).calls := by
  decide

/-- C2 (amended): the three-track minimum for the manual path is enforced
client-side only — when fewer than 3 complete tracks are given, the frontend
sets an error and issues no request at all (hence no AI call) — while the
backend handler itself rejects only an empty manual track list (with no
network call). -/
theorem C2_manual_minimum_client_side (tracks : List PlaylistTrack)
    (h : (tracks.filter validManualTrack).length < 3) :
    frontendManualRequest tracks = none ∧
    ∀ (sc tok : Bool) (cat : Except Unit (List PlaylistTrack × ℕ × List Char))
      (gk : Bool) (ai : Except Unit Bool),
      playlistAnalyze none (some []) sc tok cat gk ai =
        { status := .bad400, calls := [] } := by
  constructor
  · simp only [frontendManualRequest, if_pos h]
  · intro sc tok cat gk ai
    rfl

/-- Witness for C2 (amended) at a concrete input: a one-track list. -/
theorem C2_witness :
    frontendManualRequest [sampleTrack] = none ∧
    ∀ (sc tok : Bool) (cat : Except Unit (List PlaylistTrack × ℕ × List Char))
      (gk : Bool) (ai : Except Unit Bool),
      playlistAnalyze none (some []) sc tok cat gk ai =
        { status := .bad400, calls := [] } :=
  C2_manual_minimum_client_side [sampleTrack] (by decide)

/-- C8 counterexample: the empty string matches none of the three accepted
playlist formats and `extractPlaylistId` maps it to null, yet a request that
supplies it in spotifyUrl together with a manual track list is not answered
with 400 and does reach the AI gateway — the empty string is falsy, so the
handler falls through to the manual-tracks branch. -/
theorem C8_counterexample :
    extractPlaylistId [] = none ∧
    (playlistAnalyze (some []) (some [sampleTrack, sampleTrack, sampleTrack])
        false false (.error ()) true (.ok true)).status ≠ .bad400 ∧
    (playlistAnalyze (some []) (some [sampleTrack, sampleTrack, sampleTrack])
        false false (.error ()) true (.ok true)).calls ≠ [] := by
  decide

/-- C8 (amended): for every non-empty spotifyUrl string that matches none of
the three accepted playlist formats, `extractPlaylistId` returns null and
the handler returns 400 without making any network call to the catalog or
AI service, regardless of the other request fields; an empty spotifyUrl is
falsy and is instead treated as absent. -/
theorem C8_bad_url_no_network (s : List Char) (hne : s ≠ [])
    (h1 : matchAfterLit litP1 s = none) (h2 : matchAfterLit litP2 s = none)
    (h3 : bareIdMatch s = none) (tracks : Option (List PlaylistTrack))
    (sc tok : Bool) (cat : Except Unit (List PlaylistTrack × ℕ × List Char))
    (gk : Bool) (ai : Except Unit Bool) :
    extractPlaylistId s = none ∧
    playlistAnalyze (some s) tracks sc tok cat gk ai =
      { status := .bad400, calls := [] } := by
  have hex : extractPlaylistId s = none := by
    rw [extractPlaylistId, h1, h2]
    exact h3
  refine ⟨hex, ?_⟩
  have ht : truthyStr (some s) = true := by
    simp [truthyStr, hne]
  simp only [playlistAnalyze, ht, if_pos, hex]

/-- Witness for C8 (amended) at a concrete input: a string with spaces and
punctuation that no pattern accepts. -/
theorem C8_witness :
    extractPlaylistId "not a playlist!".data = none ∧
    playlistAnalyze (some "not a playlist!".data) none false false
        (.error ()) false (.error ()) =
      { status := .bad400, calls := [] } :=
  C8_bad_url_no_network "not a playlist!".data (by decide) (by decide)
    (by decide) (by decide) none false false (.error ()) false (.error ())

end MoodScale
